import Mathlib

/-!
Verification of the oidc-authenticator daemon (`lib/index.js`).

The development shallowly embeds the code of `OIDCAuthenticator`:
pure helpers (`generatePKCE`, `generateState`, `decodeJWT`,
`getAuthTokens`, `buildAuthorizationUrl`, `exchangeCodeForTokens`) become
Lean functions, and the HTTP request handler installed by `startDaemon`
becomes a pure function from the request, the mutable `pendingAuth` slot
and the outcomes of the external calls (token-endpoint exchange, backend
relay) to the HTTP response, the new `pendingAuth` value and a record of
which external calls were made.

External Node primitives that the code calls are modelled as follows:
`crypto.randomBytes` results and the SHA-256 digest function are passed
as parameters (byte lists); `Buffer` base64/base64url codecs are
implemented concretely over byte lists; `JSON.parse` is implemented as a
concrete recursive-descent parser over a JSON value type (restricted to
integer numerals and the simple escapes the tool ever meets, which is
enough for every concrete evaluation below).
-/

/-- One 6-bit value to a character of the base64url alphabet
(A-Z, a-z, 0-9, dash, underscore), as used by the `Buffer` method
`toString` with encoding "base64url". -/
def b64UrlChar (v : Nat) : Char :=
  if v < 26 then Char.ofNat (65 + v)
  else if v < 52 then Char.ofNat (97 + (v - 26))
  else if v < 62 then Char.ofNat (48 + (v - 52))
  else if v = 62 then '-'
  else '_'

/-- Character of the standard base64 alphabet back to its 6-bit value
(unknown characters give 0), as used by `Buffer.from` with encoding
"base64". -/
def b64StdVal (c : Char) : Nat :=
  if 'A' ≤ c ∧ c ≤ 'Z' then c.toNat - 65
  else if 'a' ≤ c ∧ c ≤ 'z' then c.toNat - 97 + 26
  else if '0' ≤ c ∧ c ≤ '9' then c.toNat - 48 + 52
  else if c = '+' then 62
  else if c = '/' then 63
  else 0

/-- The step of `decodeJWT` that replaces every dash with a plus and
every underscore with a slash (base64url alphabet to standard
alphabet), one character at a time. -/
def mapUrlToStd (c : Char) : Char :=
  if c = '-' then '+' else if c = '_' then '/' else c

/-- Model of the `Buffer` base64url rendering: encoding of a byte
list, three bytes to four characters, no padding. -/
def b64UrlEncodeBytes : List Nat → List Char
  | b0 :: b1 :: b2 :: rest =>
      b64UrlChar (b0 / 4) :: b64UrlChar ((b0 % 4) * 16 + b1 / 16) ::
      b64UrlChar ((b1 % 16) * 4 + b2 / 64) :: b64UrlChar (b2 % 64) ::
      b64UrlEncodeBytes rest
  | [b0, b1] =>
      [b64UrlChar (b0 / 4), b64UrlChar ((b0 % 4) * 16 + b1 / 16),
       b64UrlChar ((b1 % 16) * 4)]
  | [b0] =>
      [b64UrlChar (b0 / 4), b64UrlChar ((b0 % 4) * 16)]
  | [] => []

/-- Model of the `Buffer.from` base64 decoding: standard-alphabet
base64 characters to bytes, four characters to three bytes, trailing
groups of three or two characters to two bytes or one. -/
def b64DecodeChars : List Char → List Nat
  | c1 :: c2 :: c3 :: c4 :: rest =>
      (b64StdVal c1 * 4 + b64StdVal c2 / 16) ::
      ((b64StdVal c2 % 16) * 16 + b64StdVal c3 / 4) ::
      ((b64StdVal c3 % 4) * 64 + b64StdVal c4) ::
      b64DecodeChars rest
  | [c1, c2, c3] =>
      [b64StdVal c1 * 4 + b64StdVal c2 / 16,
       (b64StdVal c2 % 16) * 16 + b64StdVal c3 / 4]
  | [c1, c2] =>
      [b64StdVal c1 * 4 + b64StdVal c2 / 16]
  | _ => []

/-- A character is in the base64url alphabet. -/
def isUrlSafeChar (c : Char) : Bool :=
  ('A' ≤ c ∧ c ≤ 'Z') ∨ ('a' ≤ c ∧ c ≤ 'z') ∨ ('0' ≤ c ∧ c ≤ '9') ∨
  c = '-' ∨ c = '_'

/-- The split-on-dots step of `decodeJWT`, over the character list of
the string. JavaScript `split` on the empty string yields one empty
segment. -/
def splitOnDot : List Char → List (List Char)
  | [] => [[]]
  | c :: rest =>
      let r := splitOnDot rest
      if c = '.' then [] :: r
      else (c :: r.headD []) :: r.tail

/-- JSON values, the image of `JSON.parse` as this tool uses it
(numbers restricted to integers). -/
inductive Json where
  | null
  | bool (b : Bool)
  | num (n : Int)
  | str (s : String)
  | arr (elems : List Json)
  | obj (fields : List (String × Json))

/-- Whitespace skipping for the `JSON.parse` model. -/
def skipWs : List Char → List Char
  | c :: rest =>
      if c = ' ' ∨ c = '\n' ∨ c = '\t' ∨ c = '\r' then skipWs rest else c :: rest
  | [] => []

/-- Body of a JSON string literal after the opening quote; handles the
plain characters and the `\"`, `\\`, `\n`, `\t` escapes. -/
def parseStringBody : Nat → List Char → Option (String × List Char)
  | 0, _ => none
  | _ + 1, [] => none
  | fuel + 1, c :: rest =>
      if c = '"' then some ("", rest)
      else if c = '\\' then
        match rest with
        | [] => none
        | d :: rest2 =>
            match parseStringBody fuel rest2 with
            | some (s, r) =>
                let e := if d = 'n' then '\n' else if d = 't' then '\t' else d
                some (⟨e :: s.data⟩, r)
            | none => none
      else
        match parseStringBody fuel rest with
        | some (s, r) => some (⟨c :: s.data⟩, r)
        | none => none

def isJsonDigit (c : Char) : Bool := '0' ≤ c ∧ c ≤ '9'

/-- Consume decimal digits, accumulating their value. -/
def parseDigitsAux : List Char → Nat → Bool → Option (Nat × List Char)
  | c :: rest, acc, sawOne =>
      if isJsonDigit c then parseDigitsAux rest (acc * 10 + (c.toNat - 48)) true
      else if sawOne then some (acc, c :: rest) else none
  | [], acc, sawOne => if sawOne then some (acc, []) else none

mutual

/-- The `JSON.parse` model: parse one JSON value. -/
def parseValue : Nat → List Char → Option (Json × List Char)
  | 0, _ => none
  | fuel + 1, cs =>
      match skipWs cs with
      | [] => none
      | c :: rest =>
          if c = 'n' then
            match rest with
            | 'u' :: 'l' :: 'l' :: r => some (.null, r)
            | _ => none
          else if c = 't' then
            match rest with
            | 'r' :: 'u' :: 'e' :: r => some (.bool true, r)
            | _ => none
          else if c = 'f' then
            match rest with
            | 'a' :: 'l' :: 's' :: 'e' :: r => some (.bool false, r)
            | _ => none
          else if c = '"' then
            match parseStringBody (fuel + 1) rest with
            | some (s, r) => some (.str s, r)
            | none => none
          else if c = '[' then
            match skipWs rest with
            | ']' :: r => some (.arr [], r)
            | cs2 =>
                match parseValue fuel cs2 with
                | some (v, r) => parseArrayRest fuel r [v]
                | none => none
          else if c = '{' then
            match skipWs rest with
            | '}' :: r => some (.obj [], r)
            | cs2 => parseObjectRest fuel cs2 []
          else if c = '-' then
            match parseDigitsAux rest 0 false with
            | some (n, r) => some (.num (-(n : Int)), r)
            | none => none
          else
            match parseDigitsAux (c :: rest) 0 false with
            | some (n, r) => some (.num (n : Int), r)
            | none => none

/-- After one array element: a comma and another element, or `]`. -/
def parseArrayRest : Nat → List Char → List Json → Option (Json × List Char)
  | 0, _, _ => none
  | fuel + 1, cs, acc =>
      match skipWs cs with
      | ']' :: r => some (.arr acc.reverse, r)
      | ',' :: r =>
          match parseValue fuel r with
          | some (v, r2) => parseArrayRest fuel r2 (v :: acc)
          | none => none
      | _ => none

/-- Object members: a quoted key, a colon, a value, then a comma and
more members or `}`. -/
def parseObjectRest : Nat → List Char → List (String × Json) → Option (Json × List Char)
  | 0, _, _ => none
  | fuel + 1, cs, acc =>
      match skipWs cs with
      | '"' :: r =>
          match parseStringBody (fuel + 1) r with
          | some (k, r2) =>
              match skipWs r2 with
              | ':' :: r3 =>
                  match parseValue fuel r3 with
                  | some (v, r4) =>
                      match skipWs r4 with
                      | '}' :: r5 => some (.obj ((k, v) :: acc).reverse, r5)
                      | ',' :: r5 => parseObjectRest fuel r5 ((k, v) :: acc)
                      | _ => none
                  | none => none
              | _ => none
          | none => none
      | _ => none

end

/-- The model of `JSON.parse`: parse the whole string as one JSON
value; anything else (including the empty string) throws, modelled as
`none`. -/
def jsonParse (s : String) : Option Json :=
  match parseValue (s.data.length + 1) s.data with
  | some (v, rest) => if skipWs rest = [] then some v else none
  | none => none

/-- Property access `j.key` for a string-valued field of a parsed JSON
object (`none` for anything else, matching a JavaScript `undefined` or
non-string value in the places the tool reads one). -/
def Json.getStr (j : Json) (key : String) : Option String :=
  match j with
  | .obj fields =>
      match fields.lookup key with
      | some (.str s) => some s
      | _ => none
  | _ => none

/-- Result of `decodeJWT`: the `{ type, payload }` object. `type` is
one of the literal strings the code returns: `"jwe"` (the spec calls
this kind "encrypted"), `"jwt"` (spec: "signed"), `"unknown"`,
`"error"`. -/
structure DecodedToken where
  type : String
  payload : Option Json

/-- Bytes of a `Buffer` rendered with `toString` as UTF-8; the code
only ever decodes ASCII JSON this way, and the model maps each byte to
the character with that code point. -/
def bytesToStr (bs : List Nat) : String := ⟨bs.map Char.ofNat⟩

/-- The base64url-decoded middle segment of a three-segment token, as
`decodeJWT` computes it before calling `JSON.parse`. -/
def decodedMiddle (token : String) : String :=
  bytesToStr (b64DecodeChars
    (((splitOnDot token.data).getD 1 []).map mapUrlToStd))

/-- The function `decodeJWT` from `lib/index.js`: split on dots; five
segments mean a JWE, three mean a JWT whose middle segment is
base64url-decoded and JSON-parsed, anything else is unknown; a failing
`JSON.parse` is caught and reported as type `"error"`. -/
def decodeJWT (token : String) : DecodedToken :=
  let parts := splitOnDot token.data
  if parts.length = 5 then ⟨"jwe", none⟩
  else if parts.length ≠ 3 then ⟨"unknown", none⟩
  else
    match jsonParse (decodedMiddle token) with
    | some p => ⟨"jwt", some p⟩
    | none => ⟨"error", none⟩

/-- The function `generatePKCE`: the verifier is the base64url of 32
bytes from `crypto.randomBytes`; the challenge is the base64url of the
SHA-256 digest of the verifier string. The random bytes and the
SHA-256 digest function from the `crypto` module are external
primitives and enter as parameters; the digest input is the byte
sequence of the verifier string. -/
def generatePKCE (sha256 : List Nat → List Nat) (randomBytes : List Nat) :
    String × String :=
  let codeVerifier : String := ⟨b64UrlEncodeBytes randomBytes⟩
  let codeChallenge : String :=
    ⟨b64UrlEncodeBytes (sha256 (codeVerifier.data.map Char.toNat))⟩
  (codeVerifier, codeChallenge)

/-- The function `generateState`: 16 bytes from `crypto.randomBytes`
in base64url, the random bytes entering as a parameter. -/
def generateState (randomBytes : List Nat) : String :=
  ⟨b64UrlEncodeBytes randomBytes⟩

/-- The `config.tokens` object with fields `accessToken` and
`idToken`; a missing field is `none`, mirroring JavaScript
`undefined`. -/
structure BypassTokens where
  accessToken : Option String
  idToken : Option String
deriving DecidableEq

/-- The resolved configuration the constructor stores (the fields the
daemon handler reads; `callbackHost` and `callbackPath` are the
constants `'localhost'` and `'/'`). -/
structure Config where
  issuer : Option String
  clientId : String
  organizationId : Option String
  scopes : String
  callbackPort : Nat
  backendUrl : Option String
  tokens : Option BypassTokens

/-- JavaScript truthiness of a nullable string: `null`/`undefined` and
the empty string are falsy. -/
def truthy : Option String → Bool
  | none => false
  | some s => !s.isEmpty

/-- Result of `getAuthTokens()` together with whether the partial-
configuration warning (`logError`) was emitted. -/
structure AuthTokensResult where
  tokens : Option Json
  warned : Bool

/-- The function `getAuthTokens` from `lib/index.js`: with
`config.tokens` set, require both `accessToken` and `idToken` truthy
(else warn and return null); on success synthesize the token set with
`token_type` "Bearer" and scope "cluster-access". Without
`config.tokens` return null silently. -/
def getAuthTokens (cfg : Config) : AuthTokensResult :=
  match cfg.tokens with
  | some t =>
      if !truthy t.accessToken || !truthy t.idToken then ⟨none, true⟩
      else
        ⟨some (.obj [("access_token", .str (t.accessToken.getD "")),
                     ("id_token", .str (t.idToken.getD "")),
                     ("token_type", .str "Bearer"),
                     ("scope", .str "cluster-access")]), false⟩
  | none => ⟨none, false⟩

/-- Removal of a single trailing slash from the issuer, from the
endpoint derivation in the constructor. -/
def stripTrailingSlash (s : String) : String :=
  if s.endsWith "/" then s.dropRight 1 else s

/-- The `this.endpoints` object derived from the issuer. -/
structure Endpoints where
  authorization : String
  token : String
  userinfo : String

/-- Endpoint derivation from the constructor: `{issuer}/authorize`,
`{issuer}/oauth/token`, `{issuer}/userinfo`. -/
def deriveEndpoints (issuer : String) : Endpoints :=
  let issuerBase := stripTrailingSlash issuer
  ⟨issuerBase ++ "/authorize", issuerBase ++ "/oauth/token",
   issuerBase ++ "/userinfo"⟩

/-- One hexadecimal digit (uppercase), for percent-encoding. -/
def hexDigit (n : Nat) : Char :=
  if n < 10 then Char.ofNat (48 + n) else Char.ofNat (55 + n)

/-- The `URLSearchParams` application/x-www-form-urlencoded escaping
of one ASCII character. -/
def formUrlEncodeChar (c : Char) : List Char :=
  if ('A' ≤ c ∧ c ≤ 'Z') ∨ ('a' ≤ c ∧ c ≤ 'z') ∨ ('0' ≤ c ∧ c ≤ '9') ∨
     c = '*' ∨ c = '-' ∨ c = '.' ∨ c = '_' then [c]
  else if c = ' ' then ['+']
  else ['%', hexDigit (c.toNat % 256 / 16), hexDigit (c.toNat % 16)]

def formUrlEncode (s : String) : String :=
  ⟨(s.data.map formUrlEncodeChar).flatten⟩

/-- Rendering of `URLSearchParams`: key-value pairs joined by the
ampersand, both sides escaped. -/
def joinParams (ps : List (String × String)) : String :=
  String.intercalate "&"
    (ps.map fun p => formUrlEncode p.1 ++ "=" ++ formUrlEncode p.2)

/-- The function `buildAuthorizationUrl` from `lib/index.js`. -/
def buildAuthorizationUrl (cfg : Config) (endpoints : Endpoints)
    (codeChallenge state : String) : String :=
  let redirectUri :=
    "http://localhost:" ++ toString cfg.callbackPort ++ "/"
  let params :=
    [("client_id", cfg.clientId), ("response_type", "code"),
     ("redirect_uri", redirectUri), ("scope", cfg.scopes),
     ("state", state), ("code_challenge", codeChallenge),
     ("code_challenge_method", "S256")] ++
    (match cfg.organizationId with
     | some o => [("organization", o)]
     | none => [])
  endpoints.authorization ++ "?" ++ joinParams params

/-- An HTTP response from the token endpoint as the `https.request`
callback assembles it: status code and accumulated body. -/
structure HttpResp where
  statusCode : Nat
  body : String

/-- The three rejection reasons of `exchangeCodeForTokens`, one per
`reject(new Error(...))` site. The `parseFailed` site interpolates
the message of the JavaScript exception, which the model elides. -/
inductive ExchangeError where
  | exchangeFailed (providerError : String)
  | parseFailed
  | requestFailed (message : String)
deriving DecidableEq

/-- The `Error.message` string each rejection site builds. -/
def ExchangeError.message : ExchangeError → String
  | .exchangeFailed e => "Token exchange failed: " ++ e
  | .parseFailed => "Failed to parse token response"
  | .requestFailed m => "Token exchange request failed: " ++ m

/-- The expression reading `jsonData.error` with fallback
"Unknown error" (a missing or empty `error` field falls back to the
literal). -/
def jsonErrorField (j : Json) : String :=
  match j.getStr "error" with
  | some s => if s.isEmpty then "Unknown error" else s
  | none => "Unknown error"

/-- The function `exchangeCodeForTokens` from `lib/index.js`,
reduced to its decision structure: the network outcome (`https`
request error, or a response with status and body) enters as a
parameter. The body is `JSON.parse`d first; a parse failure rejects
with the malformed-response error whatever the status; with parsed
JSON, a 2xx status resolves with the parsed body (no field of it is
inspected) and any other status rejects with the `error` field of the
provider or "Unknown error". -/
def exchangeCodeForTokens (net : Except String HttpResp) :
    Except ExchangeError Json :=
  match net with
  | .error msg => .error (.requestFailed msg)
  | .ok resp =>
      match jsonParse resp.body with
      | none => .error .parseFailed
      | some jsonData =>
          if 200 ≤ resp.statusCode ∧ resp.statusCode < 300 then .ok jsonData
          else .error (.exchangeFailed (jsonErrorField jsonData))

/-- The `this.pendingAuth` object stored by the initiation branch of
the daemon. -/
structure PendingAuth where
  codeVerifier : String
  state : String
  returnTokens : Bool
deriving DecidableEq

/-- An incoming HTTP request as the daemon handler reads it: the URL
path and the query parameters it consults (a parameter that is absent
is `none`; `searchParams.has` is `≠ none` and `searchParams.get` is
the value). `headerCookie` is `req.headers.cookie`. -/
structure Req where
  pathname : String
  code : Option String
  state : Option String
  error : Option String
  errorDescription : Option String
  mode : Option String
  cookies : Option String
  headerCookie : Option String

/-- Outcome of the awaited `exchangeCodeForTokens` call: the resolved
token JSON, or the message of the rejection it throws. -/
inductive ExchangeOutcome where
  | success (tokens : Json)
  | failure (message : String)

/-- Outcome of the awaited `sendTokensToBackend` call: `ok` carries
`backendResponse.data`, `error` the rejection message (non-2xx backend
status or network failure). -/
abbrev RelayOutcome := Except String String

/-- The distinct HTML/JSON documents the daemon handler renders, one
constructor per `res.end` site in `startDaemon`, carrying the values
interpolated into the template. `empty` is the bodyless 302 redirect. -/
inductive Page where
  | healthJson (issuer : Option String)
  | bypassClusterTokens (tokens : Json)
  | bypassBackstageComplete (backstageToken : Option String)
  | empty
  | authError (error : String) (errorDescription : Option String)
  | invalidSession
  | clusterTokens (tokens : Json)
  | backstageComplete (backstageToken : Option String)
  | backendFailed
  | noBackendConfigured
  | exchangeFailed (message : String)
  | notFound

/-- The `window.opener.postMessage` payload the inline script of a
page sends, when it has one. -/
structure PostMsg where
  type : String
  tokens : Option Json
  backstageToken : Option (Option String)
  success : Option Bool
  bypassMode : Option Bool

/-- The message the script of each rendered page posts to
`window.opener`, read off the inline script templates in `startDaemon`
(pages without a `postMessage` call give `none`). -/
def postedMessage : Page → Option PostMsg
  | .bypassClusterTokens t => some ⟨"cluster-tokens", some t, none, none, none⟩
  | .bypassBackstageComplete bt =>
      some ⟨"backstage-auth-complete", none, some bt, some true, some true⟩
  | .clusterTokens t => some ⟨"cluster-tokens", some t, none, none, none⟩
  | .backstageComplete bt =>
      some ⟨"backstage-auth-complete", none, some bt, some true, none⟩
  | _ => none

/-- The `<h1>` heading of each rendered HTML page, read off the
templates (`none` for the JSON health document and the bodyless
redirect). -/
def pageH1 : Page → Option String
  | .healthJson _ => none
  | .bypassClusterTokens _ => some "✅ Authentication Successful!"
  | .bypassBackstageComplete _ => some "✅ Authentication Successful!"
  | .empty => none
  | .authError _ _ => some "❌ Authentication Failed"
  | .invalidSession => some "Error: Invalid or expired authentication session"
  | .clusterTokens _ => some "✅ Authentication Successful!"
  | .backstageComplete _ => some "✅ Authentication Successful!"
  | .backendFailed => some "✅ Authentication Successful!"
  | .noBackendConfigured => some "✅ Authentication Successful!"
  | .exchangeFailed _ => some "❌ Token Exchange Failed"
  | .notFound => some "404 - Not Found"

/-- Secondary note paragraphs of the success pages, read off the
templates. -/
def pageNote : Page → Option String
  | .backendFailed =>
      some "Note: Could not connect to backend - tokens saved locally."
  | .noBackendConfigured => some "⚠️ No backend URL configured - tokens not sent."
  | _ => none

/-- An HTTP response: `res.writeHead` status, the `Location` header
when present, and the rendered page. -/
structure Response where
  status : Nat
  location : Option String
  page : Page

/-- What one invocation of the request handler of the daemon produced: the
response, the value of `this.pendingAuth` afterwards, whether
`exchangeCodeForTokens` was invoked, whether `sendTokensToBackend` was
invoked, and the `logError` line the handler emitted (if any). -/
structure HandlerResult where
  response : Response
  pendingAuth : Option PendingAuth
  exchangeAttempted : Bool
  relayAttempted : Bool
  errorLog : Option String

/-- The fresh cryptographic material an initiation request consumes:
the results of the `generatePKCE` and `generateState` calls of the
handler. -/
structure FreshAuth where
  codeVerifier : String
  codeChallenge : String
  state : String

/-- Reading `backstageToken` from the JSON-parsed
`backendResponse.data`, with the parse failure caught (yielding
`null`, modelled `none`). -/
def backstageTokenOf (data : String) : Option String :=
  match jsonParse data with
  | some j => j.getStr "backstageToken"
  | none => none

/-- The daemon request handler installed by `startDaemon` in
`lib/index.js`, as a pure function. `pending` is `this.pendingAuth` on
entry; `fresh` is the PKCE/state material minted if the initiation
branch runs; `exch` and `relay` are the outcomes of the external
`exchangeCodeForTokens` and `sendTokensToBackend` calls should the
handler perform them. The branch structure follows the source: health
check; initiation (path `/` without a `code` parameter) with its
bypass sub-branches; callback (path `/` with `code`) with the
provider-error, state-validation, exchange and delivery sub-branches;
404 otherwise. When no issuer is configured `this.endpoints` is
`undefined` in the source; `bin/cli.js` refuses to start the daemon in
that state unless bypass tokens are complete, so the corresponding
branch here (modelled with empty endpoint strings) is unreachable in a
running daemon and no theorem relies on it. -/
def handleRequest (cfg : Config) (pending : Option PendingAuth) (req : Req)
    (fresh : FreshAuth) (exch : ExchangeOutcome) (relay : RelayOutcome) :
    HandlerResult :=
  let preConfiguredTokens := (getAuthTokens cfg).tokens
  if req.pathname = "/health" then
    ⟨⟨200, none, .healthJson cfg.issuer⟩, pending, false, false, none⟩
  else if req.pathname = "/" ∧ req.code = none then
    let returnTokens := decide (req.mode = some "return-tokens")
    match preConfiguredTokens with
    | some toks =>
        if returnTokens then
          ⟨⟨200, none, .bypassClusterTokens toks⟩, pending, false, false, none⟩
        else
          match cfg.backendUrl with
          | some _ =>
              match relay with
              | .ok data =>
                  ⟨⟨200, none, .bypassBackstageComplete (backstageTokenOf data)⟩,
                   pending, false, true, none⟩
              | .error _ =>
                  ⟨⟨200, none, .bypassBackstageComplete none⟩,
                   pending, false, true, none⟩
          | none =>
              ⟨⟨200, none, .bypassBackstageComplete none⟩,
               pending, false, false, none⟩
    | none =>
        match cfg.issuer with
        | some issuer =>
            ⟨⟨302, some (buildAuthorizationUrl cfg (deriveEndpoints issuer)
                  fresh.codeChallenge fresh.state), .empty⟩,
             some ⟨fresh.codeVerifier, fresh.state, returnTokens⟩,
             false, false, none⟩
        | none =>
            ⟨⟨302, some (buildAuthorizationUrl cfg ⟨"", "", ""⟩
                  fresh.codeChallenge fresh.state), .empty⟩,
             some ⟨fresh.codeVerifier, fresh.state, returnTokens⟩,
             false, false, none⟩
  else if req.pathname = "/" ∧ req.code ≠ none then
    if truthy req.error then
      ⟨⟨200, none, .authError (req.error.getD "") req.errorDescription⟩,
       pending, false, false,
       some ("❌ Authentication error: " ++ req.error.getD "" ++ " - " ++
             req.errorDescription.getD "null")⟩
    else
      match pending with
      | none =>
          ⟨⟨400, none, .invalidSession⟩, pending, false, false,
           some "❌ State mismatch - possible CSRF attack or expired session"⟩
      | some pa =>
          if req.state ≠ some pa.state then
            ⟨⟨400, none, .invalidSession⟩, pending, false, false,
             some "❌ State mismatch - possible CSRF attack or expired session"⟩
          else
            match exch with
            | .failure msg =>
                ⟨⟨500, none, .exchangeFailed msg⟩, pending, true, false,
                 some ("❌ Token exchange failed: " ++ msg)⟩
            | .success tokens =>
                if pa.returnTokens then
                  ⟨⟨200, none, .clusterTokens tokens⟩, none, true, false, none⟩
                else
                  match cfg.backendUrl with
                  | some _ =>
                      match relay with
                      | .ok data =>
                          ⟨⟨200, none,
                            .backstageComplete (backstageTokenOf data)⟩,
                           none, true, true, none⟩
                      | .error _ =>
                          ⟨⟨200, none, .backendFailed⟩, none, true, true, none⟩
                  | none =>
                      ⟨⟨200, none, .noBackendConfigured⟩, none, true, false, none⟩
  else
    ⟨⟨404, none, .notFound⟩, pending, false, false, none⟩

/-- A resolved configuration with issuer and client id and no bypass
tokens, for concrete evaluations. -/
def cfgPlain : Config :=
  ⟨some "https://issuer.example/", "client-1", none, "openid profile email",
   8000, none, none⟩

/-- Like `cfgPlain` but with a backend URL configured. -/
def cfgBackend : Config :=
  ⟨some "https://issuer.example/", "client-1", none, "openid profile email",
   8000, some "http://localhost:7007", none⟩

/-- A configuration whose bypass tokens are partial: only `accessToken`
is supplied. -/
def cfgBypassOnlyAccess : Config :=
  ⟨some "https://issuer.example/", "client-1", none, "openid profile email",
   8000, none, some ⟨some "tokA", none⟩⟩

/-- A callback request: path `/` with `code` and `state` parameters. -/
def callbackReq (code state : String) : Req :=
  ⟨"/", some code, some state, none, none, none, none, none⟩

/-- An initiation request: path `/` without a `code` parameter. -/
def initReq : Req :=
  ⟨"/", none, none, none, none, none, none, none⟩

/-- Concrete fresh PKCE/state material for evaluations. -/
def freshA : FreshAuth := ⟨"verifier-1", "challenge-1", "state-1"⟩

/-- A concrete exchanged token set for evaluations. -/
def tokensA : Json :=
  .obj [("access_token", .str "at"), ("id_token", .str "it")]

theorem b64UrlChar_urlSafe (v : Nat) : isUrlSafeChar (b64UrlChar v) = true := by
  by_cases h : v < 64
  · have hv : ∀ w : Fin 64, isUrlSafeChar (b64UrlChar w.val) = true := by decide
    exact hv ⟨v, h⟩
  · unfold b64UrlChar
    have h26 : ¬ v < 26 := by omega
    have h52 : ¬ v < 52 := by omega
    have h62 : ¬ v < 62 := by omega
    by_cases h62e : v = 62
    · simp [h26, h52, h62, h62e, isUrlSafeChar]
    · simp [h26, h52, h62, h62e, isUrlSafeChar]

theorem b64StdVal_mapUrlToStd_b64UrlChar (v : Nat) (h : v < 64) :
    b64StdVal (mapUrlToStd (b64UrlChar v)) = v := by
  have hv : ∀ w : Fin 64, b64StdVal (mapUrlToStd (b64UrlChar w.val)) = w.val := by decide
  exact hv ⟨v, h⟩

theorem b64UrlEncodeBytes_roundtrip (bs : List Nat) (h : ∀ b ∈ bs, b < 256) :
    b64DecodeChars ((b64UrlEncodeBytes bs).map mapUrlToStd) = bs := by
  induction bs using b64UrlEncodeBytes.induct with
  | case1 b0 b1 b2 rest ih =>
    have hb0 : b0 < 256 := h b0 (by simp)
    have hb1 : b1 < 256 := h b1 (by simp)
    have hb2 : b2 < 256 := h b2 (by simp)
    have hrest : ∀ b ∈ rest, b < 256 := fun b hb => h b (by simp [hb])
    simp only [b64UrlEncodeBytes, List.map_cons, b64DecodeChars]
    rw [b64StdVal_mapUrlToStd_b64UrlChar _ (by omega),
        b64StdVal_mapUrlToStd_b64UrlChar _ (by omega),
        b64StdVal_mapUrlToStd_b64UrlChar _ (by omega),
        b64StdVal_mapUrlToStd_b64UrlChar _ (by omega),
        ih hrest]
    have e0 : b0 / 4 * 4 + ((b0 % 4) * 16 + b1 / 16) / 16 = b0 := by omega
    have e1 : ((b0 % 4) * 16 + b1 / 16) % 16 * 16 + ((b1 % 16) * 4 + b2 / 64) / 4 = b1 := by
      omega
    have e2 : ((b1 % 16) * 4 + b2 / 64) % 4 * 64 + b2 % 64 = b2 := by omega
    rw [e0, e1, e2]
  | case2 b0 b1 =>
    have hb0 : b0 < 256 := h b0 (by simp)
    have hb1 : b1 < 256 := h b1 (by simp)
    simp only [b64UrlEncodeBytes, List.map_cons, List.map_nil, b64DecodeChars]
    rw [b64StdVal_mapUrlToStd_b64UrlChar _ (by omega),
        b64StdVal_mapUrlToStd_b64UrlChar _ (by omega),
        b64StdVal_mapUrlToStd_b64UrlChar _ (by omega)]
    have e0 : b0 / 4 * 4 + ((b0 % 4) * 16 + b1 / 16) / 16 = b0 := by omega
    have e1 : ((b0 % 4) * 16 + b1 / 16) % 16 * 16 + (b1 % 16) * 4 / 4 = b1 := by omega
    rw [e0, e1]
  | case3 b0 =>
    have hb0 : b0 < 256 := h b0 (by simp)
    simp only [b64UrlEncodeBytes, List.map_cons, List.map_nil, b64DecodeChars]
    rw [b64StdVal_mapUrlToStd_b64UrlChar _ (by omega),
        b64StdVal_mapUrlToStd_b64UrlChar _ (by omega)]
    have e0 : b0 / 4 * 4 + (b0 % 4) * 16 / 16 = b0 := by omega
    rw [e0]
  | case4 => rfl

theorem b64UrlEncodeBytes_mem_urlSafe (bs : List Nat) :
    ∀ c ∈ b64UrlEncodeBytes bs, isUrlSafeChar c = true := by
  induction bs using b64UrlEncodeBytes.induct with
  | case1 b0 b1 b2 rest ih =>
    intro c hc
    simp only [b64UrlEncodeBytes, List.mem_cons] at hc
    rcases hc with h | h | h | h | h
    · rw [h]; exact b64UrlChar_urlSafe _
    · rw [h]; exact b64UrlChar_urlSafe _
    · rw [h]; exact b64UrlChar_urlSafe _
    · rw [h]; exact b64UrlChar_urlSafe _
    · exact ih c h
  | case2 b0 b1 =>
    intro c hc
    simp only [b64UrlEncodeBytes, List.mem_cons, List.not_mem_nil, or_false] at hc
    rcases hc with h | h | h <;> (rw [h]; exact b64UrlChar_urlSafe _)
  | case3 b0 =>
    intro c hc
    simp only [b64UrlEncodeBytes, List.mem_cons, List.not_mem_nil, or_false] at hc
    rcases hc with h | h <;> (rw [h]; exact b64UrlChar_urlSafe _)
  | case4 => intro c hc; simp [b64UrlEncodeBytes] at hc

theorem b64UrlEncodeBytes_length (bs : List Nat) :
    (b64UrlEncodeBytes bs).length =
      4 * (bs.length / 3) + (if bs.length % 3 = 0 then 0 else bs.length % 3 + 1) := by
  induction bs using b64UrlEncodeBytes.induct with
  | case1 b0 b1 b2 rest ih =>
    simp only [b64UrlEncodeBytes, List.length_cons, ih]
    have h3 : (rest.length + 1 + 1 + 1) % 3 = rest.length % 3 := by omega
    rw [h3]
    by_cases hz : rest.length % 3 = 0 <;> simp [hz] <;> omega
  | case2 b0 b1 => simp [b64UrlEncodeBytes]
  | case3 b0 => simp [b64UrlEncodeBytes]
  | case4 => rfl

theorem b64UrlEncodeBytes_no_dot (bs : List Nat) :
    '.' ∉ b64UrlEncodeBytes bs := by
  intro hmem
  have := b64UrlEncodeBytes_mem_urlSafe bs '.' hmem
  simp [isUrlSafeChar] at this

theorem b64UrlEncodeBytes_no_pad (bs : List Nat) :
    '=' ∉ b64UrlEncodeBytes bs := by
  intro hmem
  have := b64UrlEncodeBytes_mem_urlSafe bs '=' hmem
  simp [isUrlSafeChar] at this

theorem splitOnDot_ne_nil (cs : List Char) : splitOnDot cs ≠ [] := by
  induction cs with
  | nil => simp [splitOnDot]
  | cons c rest ih =>
    simp only [splitOnDot]
    by_cases h : c = '.'
    · simp [h]
    · simp only [if_neg h]
      intro hc
      have := congrArg List.length hc
      simp at this

theorem splitOnDot_no_dot (a : List Char) (ha : '.' ∉ a) :
    splitOnDot a = [a] := by
  induction a with
  | nil => rfl
  | cons c rest ih =>
    have hc : c ≠ '.' := fun h => ha (by simp [h])
    have hrest : '.' ∉ rest := fun h => ha (by simp [h])
    simp only [splitOnDot, if_neg hc, ih hrest]
    rfl

theorem splitOnDot_append_dot (a b : List Char) (ha : '.' ∉ a) :
    splitOnDot (a ++ '.' :: b) = a :: splitOnDot b := by
  induction a with
  | nil => simp [splitOnDot]
  | cons c rest ih =>
    have hc : c ≠ '.' := fun h => ha (by simp [h])
    have hrest : '.' ∉ rest := fun h => ha (by simp [h])
    rw [List.cons_append]
    simp only [splitOnDot, if_neg hc]
    rw [ih hrest]
    rfl

theorem handleRequest_callback_noSession (cfg : Config) (req : Req)
    (fresh : FreshAuth) (exch : ExchangeOutcome) (relay : RelayOutcome)
    (hpath : req.pathname = "/") (hcode : req.code ≠ none)
    (herr : req.error = none) :
    handleRequest cfg none req fresh exch relay =
      ⟨⟨400, none, .invalidSession⟩, none, false, false,
       some "❌ State mismatch - possible CSRF attack or expired session"⟩ := by
  simp [handleRequest, hpath, hcode, herr, truthy]

theorem handleRequest_callback_mismatch (cfg : Config) (pa : PendingAuth)
    (req : Req) (fresh : FreshAuth) (exch : ExchangeOutcome)
    (relay : RelayOutcome)
    (hpath : req.pathname = "/") (hcode : req.code ≠ none)
    (herr : req.error = none) (hst : req.state ≠ some pa.state) :
    handleRequest cfg (some pa) req fresh exch relay =
      ⟨⟨400, none, .invalidSession⟩, some pa, false, false,
       some "❌ State mismatch - possible CSRF attack or expired session"⟩ := by
  simp [handleRequest, hpath, hcode, herr, truthy, hst]

theorem handleRequest_callback_error (cfg : Config)
    (pending : Option PendingAuth) (req : Req) (fresh : FreshAuth)
    (exch : ExchangeOutcome) (relay : RelayOutcome)
    (hpath : req.pathname = "/") (hcode : req.code ≠ none)
    (herr : truthy req.error = true) :
    handleRequest cfg pending req fresh exch relay =
      ⟨⟨200, none, .authError (req.error.getD "") req.errorDescription⟩,
       pending, false, false,
       some ("❌ Authentication error: " ++ req.error.getD "" ++ " - " ++
             req.errorDescription.getD "null")⟩ := by
  simp [handleRequest, hpath, hcode, herr]

theorem handleRequest_callback_exchange_failure (cfg : Config)
    (pa : PendingAuth) (req : Req) (fresh : FreshAuth) (m : String)
    (relay : RelayOutcome)
    (hpath : req.pathname = "/") (hcode : req.code ≠ none)
    (herr : req.error = none) (hst : req.state = some pa.state) :
    handleRequest cfg (some pa) req fresh (.failure m) relay =
      ⟨⟨500, none, .exchangeFailed m⟩, some pa, true, false,
       some ("❌ Token exchange failed: " ++ m)⟩ := by
  simp [handleRequest, hpath, hcode, herr, truthy, hst]

theorem handleRequest_callback_success_return (cfg : Config)
    (pa : PendingAuth) (req : Req) (fresh : FreshAuth) (t : Json)
    (relay : RelayOutcome)
    (hpath : req.pathname = "/") (hcode : req.code ≠ none)
    (herr : req.error = none) (hst : req.state = some pa.state)
    (hret : pa.returnTokens = true) :
    handleRequest cfg (some pa) req fresh (.success t) relay =
      ⟨⟨200, none, .clusterTokens t⟩, none, true, false, none⟩ := by
  simp [handleRequest, hpath, hcode, herr, truthy, hst, hret]

theorem handleRequest_callback_success_backend_ok (cfg : Config)
    (pa : PendingAuth) (req : Req) (fresh : FreshAuth) (t : Json)
    (b data : String)
    (hpath : req.pathname = "/") (hcode : req.code ≠ none)
    (herr : req.error = none) (hst : req.state = some pa.state)
    (hret : pa.returnTokens = false) (hb : cfg.backendUrl = some b) :
    handleRequest cfg (some pa) req fresh (.success t) (.ok data) =
      ⟨⟨200, none, .backstageComplete (backstageTokenOf data)⟩,
       none, true, true, none⟩ := by
  simp [handleRequest, hpath, hcode, herr, truthy, hst, hret, hb]

theorem handleRequest_callback_success_backend_err (cfg : Config)
    (pa : PendingAuth) (req : Req) (fresh : FreshAuth) (t : Json)
    (b m : String)
    (hpath : req.pathname = "/") (hcode : req.code ≠ none)
    (herr : req.error = none) (hst : req.state = some pa.state)
    (hret : pa.returnTokens = false) (hb : cfg.backendUrl = some b) :
    handleRequest cfg (some pa) req fresh (.success t) (.error m) =
      ⟨⟨200, none, .backendFailed⟩, none, true, true, none⟩ := by
  simp [handleRequest, hpath, hcode, herr, truthy, hst, hret, hb]

theorem handleRequest_callback_success_noBackend (cfg : Config)
    (pa : PendingAuth) (req : Req) (fresh : FreshAuth) (t : Json)
    (relay : RelayOutcome)
    (hpath : req.pathname = "/") (hcode : req.code ≠ none)
    (herr : req.error = none) (hst : req.state = some pa.state)
    (hret : pa.returnTokens = false) (hb : cfg.backendUrl = none) :
    handleRequest cfg (some pa) req fresh (.success t) relay =
      ⟨⟨200, none, .noBackendConfigured⟩, none, true, false, none⟩ := by
  simp [handleRequest, hpath, hcode, herr, truthy, hst, hret, hb]

theorem handleRequest_initiation_oidc (cfg : Config)
    (pending : Option PendingAuth) (req : Req) (fresh : FreshAuth)
    (exch : ExchangeOutcome) (relay : RelayOutcome) (issuer : String)
    (hpath : req.pathname = "/") (hcode : req.code = none)
    (hbypass : (getAuthTokens cfg).tokens = none)
    (hiss : cfg.issuer = some issuer) :
    handleRequest cfg pending req fresh exch relay =
      ⟨⟨302, some (buildAuthorizationUrl cfg (deriveEndpoints issuer)
            fresh.codeChallenge fresh.state), .empty⟩,
       some ⟨fresh.codeVerifier, fresh.state,
             decide (req.mode = some "return-tokens")⟩,
       false, false, none⟩ := by
  simp [handleRequest, hpath, hcode, hbypass, hiss]

/-- C1: for every request to the callback route of the daemon (path `/`
with a `code` query parameter and no `error` parameter), if the
`state` parameter does not equal the state of the currently pending
session — including when no session is pending at all — the server
responds HTTP 400 and does not invoke the token exchange. -/
theorem C1_state_mismatch_rejected (cfg : Config)
    (pending : Option PendingAuth) (req : Req) (fresh : FreshAuth)
    (exch : ExchangeOutcome) (relay : RelayOutcome)
    (hpath : req.pathname = "/") (hcode : req.code ≠ none)
    (herr : req.error = none)
    (hmis : ∀ pa, pending = some pa → req.state ≠ some pa.state) :
    (handleRequest cfg pending req fresh exch relay).response.status = 400 ∧
    (handleRequest cfg pending req fresh exch relay).exchangeAttempted = false := by
  cases pending with
  | none =>
    rw [handleRequest_callback_noSession cfg req fresh exch relay hpath hcode herr]
    exact ⟨rfl, rfl⟩
  | some pa =>
    rw [handleRequest_callback_mismatch cfg pa req fresh exch relay hpath hcode
        herr (hmis pa rfl)]
    exact ⟨rfl, rfl⟩

/-- Witness for C1 at a concrete mismatching callback. -/
theorem C1_witness :
    (handleRequest cfgPlain (some ⟨"v1", "s1", false⟩) (callbackReq "c1" "sX")
        freshA (.success tokensA) (.ok "\x7b\x7d")).response.status = 400 ∧
    (handleRequest cfgPlain (some ⟨"v1", "s1", false⟩) (callbackReq "c1" "sX")
        freshA (.success tokensA) (.ok "\x7b\x7d")).exchangeAttempted = false :=
  C1_state_mismatch_rejected cfgPlain (some ⟨"v1", "s1", false⟩)
    (callbackReq "c1" "sX") freshA (.success tokensA) (.ok "\x7b\x7d")
    rfl (by simp [callbackReq]) rfl
    (fun pa h => by
      injection h with h1
      subst h1
      simp [callbackReq])

/-- C10 (amended): the daemon does not distinguish the two failure
causes of session consumption: a callback whose state mismatches the
pending session and a callback arriving with no session pending
produce the identical HTTP 400 response and the identical single
diagnostic line (the merged message `State mismatch - possible CSRF
attack or expired session`), not two distinguishable diagnostics. -/
theorem C10_merged_diagnostic (cfg : Config) (pending : Option PendingAuth)
    (req : Req) (fresh : FreshAuth) (exch : ExchangeOutcome)
    (relay : RelayOutcome)
    (hpath : req.pathname = "/") (hcode : req.code ≠ none)
    (herr : req.error = none)
    (hmis : pending = none ∨ ∃ pa, pending = some pa ∧ req.state ≠ some pa.state) :
    (handleRequest cfg pending req fresh exch relay).response =
      ⟨400, none, .invalidSession⟩ ∧
    (handleRequest cfg pending req fresh exch relay).errorLog =
      some "❌ State mismatch - possible CSRF attack or expired session" := by
  rcases hmis with h | ⟨pa, hpa, hst⟩
  · subst h
    rw [handleRequest_callback_noSession cfg req fresh exch relay hpath hcode herr]
    exact ⟨rfl, rfl⟩
  · subst hpa
    rw [handleRequest_callback_mismatch cfg pa req fresh exch relay hpath hcode
        herr hst]
    exact ⟨rfl, rfl⟩

/-- Witness for the amended C10 statement at a concrete no-session
callback. -/
theorem C10_witness :
    (handleRequest cfgPlain none (callbackReq "c2" "s2") freshA
        (.success tokensA) (.ok "\x7b\x7d")).response =
      ⟨400, none, .invalidSession⟩ ∧
    (handleRequest cfgPlain none (callbackReq "c2" "s2") freshA
        (.success tokensA) (.ok "\x7b\x7d")).errorLog =
      some "❌ State mismatch - possible CSRF attack or expired session" :=
  C10_merged_diagnostic cfgPlain none (callbackReq "c2" "s2") freshA
    (.success tokensA) (.ok "\x7b\x7d") rfl (by simp [callbackReq]) rfl (Or.inl rfl)

/-- C10 counterexample: the no-session case and the state-mismatch
case produce the identical response and the identical diagnostic, so
the two conditions are not surfaced as distinct errors. -/
theorem C10_counterexample :
    (handleRequest cfgPlain none (callbackReq "c1" "s1") freshA
        (.success tokensA) (.ok "\x7b\x7d")).response =
      (handleRequest cfgPlain (some ⟨"v1", "sOther", false⟩)
        (callbackReq "c1" "s1") freshA (.success tokensA) (.ok "\x7b\x7d")).response ∧
    (handleRequest cfgPlain none (callbackReq "c1" "s1") freshA
        (.success tokensA) (.ok "\x7b\x7d")).errorLog =
      (handleRequest cfgPlain (some ⟨"v1", "sOther", false⟩)
        (callbackReq "c1" "s1") freshA (.success tokensA) (.ok "\x7b\x7d")).errorLog :=
  ⟨rfl, rfl⟩

/-- C2 (amended): the pending session is consumed exactly when the
token exchange succeeds. After a successful exchange the slot is
cleared and a second callback reusing the same `code`/`state` is
rejected with HTTP 400 and no exchange; after a failed exchange the
session remains pending, so the callback may be retried. -/
theorem C2_single_use_on_success (cfg : Config) (pa : PendingAuth)
    (req req2 : Req) (fresh fresh2 : FreshAuth) (t : Json) (m : String)
    (relay relay2 : RelayOutcome) (exch2 : ExchangeOutcome)
    (hpath : req.pathname = "/") (hcode : req.code ≠ none)
    (herr : req.error = none) (hst : req.state = some pa.state)
    (hpath2 : req2.pathname = "/") (hcode2 : req2.code ≠ none)
    (herr2 : req2.error = none) :
    (handleRequest cfg (some pa) req fresh (.success t) relay).pendingAuth =
      none ∧
    (handleRequest cfg
        (handleRequest cfg (some pa) req fresh (.success t) relay).pendingAuth
        req2 fresh2 exch2 relay2).response.status = 400 ∧
    (handleRequest cfg
        (handleRequest cfg (some pa) req fresh (.success t) relay).pendingAuth
        req2 fresh2 exch2 relay2).exchangeAttempted = false ∧
    (handleRequest cfg (some pa) req fresh (.failure m) relay).pendingAuth =
      some pa := by
  have hclear :
      (handleRequest cfg (some pa) req fresh (.success t) relay).pendingAuth =
        none := by
    by_cases hret : pa.returnTokens = true
    · rw [handleRequest_callback_success_return cfg pa req fresh t relay hpath
          hcode herr hst hret]
    · have hret2 : pa.returnTokens = false := by
        revert hret
        cases pa.returnTokens <;> simp
      cases hb : cfg.backendUrl with
      | none =>
        rw [handleRequest_callback_success_noBackend cfg pa req fresh t relay
            hpath hcode herr hst hret2 hb]
      | some b =>
        cases relay with
        | ok data =>
          rw [handleRequest_callback_success_backend_ok cfg pa req fresh t b
              data hpath hcode herr hst hret2 hb]
        | error m2 =>
          rw [handleRequest_callback_success_backend_err cfg pa req fresh t b
              m2 hpath hcode herr hst hret2 hb]
  refine ⟨hclear, ?_, ?_, ?_⟩
  · rw [hclear,
        handleRequest_callback_noSession cfg req2 fresh2 exch2 relay2 hpath2
          hcode2 herr2]
  · rw [hclear,
        handleRequest_callback_noSession cfg req2 fresh2 exch2 relay2 hpath2
          hcode2 herr2]
  · rw [handleRequest_callback_exchange_failure cfg pa req fresh m relay hpath
        hcode herr hst]

/-- Witness for the amended C2 statement at a concrete matching
callback replayed once. -/
theorem C2_witness :
    (handleRequest cfgBackend (some ⟨"v1", "s1", false⟩)
        (callbackReq "c1" "s1") freshA (.success tokensA) (.ok "\x7b\x7d")).pendingAuth =
      none ∧
    (handleRequest cfgBackend
        (handleRequest cfgBackend (some ⟨"v1", "s1", false⟩)
          (callbackReq "c1" "s1") freshA (.success tokensA) (.ok "\x7b\x7d")).pendingAuth
        (callbackReq "c1" "s1") freshA (.success tokensA) (.ok "\x7b\x7d")).response.status =
      400 ∧
    (handleRequest cfgBackend
        (handleRequest cfgBackend (some ⟨"v1", "s1", false⟩)
          (callbackReq "c1" "s1") freshA (.success tokensA) (.ok "\x7b\x7d")).pendingAuth
        (callbackReq "c1" "s1") freshA (.success tokensA) (.ok "\x7b\x7d")).exchangeAttempted =
      false ∧
    (handleRequest cfgBackend (some ⟨"v1", "s1", false⟩)
        (callbackReq "c1" "s1") freshA (.failure "boom") (.ok "\x7b\x7d")).pendingAuth =
      some ⟨"v1", "s1", false⟩ :=
  C2_single_use_on_success cfgBackend ⟨"v1", "s1", false⟩
    (callbackReq "c1" "s1") (callbackReq "c1" "s1") freshA freshA tokensA
    "boom" (.ok "\x7b\x7d") (.ok "\x7b\x7d") (.success tokensA)
    rfl (by simp [callbackReq]) rfl rfl rfl (by simp [callbackReq]) rfl

/-- C2 counterexample: the claim as stated fails when the token
exchange fails. After a matching callback whose exchange attempt
throws, the session is still pending, and a second callback reusing
the identical `code` and `state` is accepted (the exchange is invoked
again and the response is 200 on success), not rejected. -/
theorem C2_counterexample :
    (handleRequest cfgPlain (some ⟨"v1", "s1", true⟩) (callbackReq "c1" "s1")
        freshA (.failure "econnreset") (.ok "\x7b\x7d")).pendingAuth =
      some ⟨"v1", "s1", true⟩ ∧
    (handleRequest cfgPlain
        (handleRequest cfgPlain (some ⟨"v1", "s1", true⟩)
          (callbackReq "c1" "s1") freshA (.failure "econnreset")
          (.ok "\x7b\x7d")).pendingAuth
        (callbackReq "c1" "s1") freshA (.success tokensA)
        (.ok "\x7b\x7d")).exchangeAttempted = true ∧
    (handleRequest cfgPlain
        (handleRequest cfgPlain (some ⟨"v1", "s1", true⟩)
          (callbackReq "c1" "s1") freshA (.failure "econnreset")
          (.ok "\x7b\x7d")).pendingAuth
        (callbackReq "c1" "s1") freshA (.success tokensA)
        (.ok "\x7b\x7d")).response.status = 200 :=
  ⟨rfl, rfl, rfl⟩

/-- C4 (amended): a callback request carrying both a `code` parameter
and a truthy `error` parameter is answered HTTP 200 with the failure
page that displays the error code and the error description, and no
token exchange is attempted. A request carrying `error` but no `code`
is not handled by the callback branch at all: it is routed to the
initiation branch (in a non-bypass configuration it is answered with
the 302 redirect to the identity provider). -/
theorem C4_error_param_page (cfg : Config) (pending : Option PendingAuth)
    (req : Req) (fresh : FreshAuth) (exch : ExchangeOutcome)
    (relay : RelayOutcome)
    (hpath : req.pathname = "/") (hcode : req.code ≠ none)
    (herr : truthy req.error = true) :
    ((handleRequest cfg pending req fresh exch relay).response.status = 200 ∧
     (handleRequest cfg pending req fresh exch relay).response.page =
       .authError (req.error.getD "") req.errorDescription ∧
     (handleRequest cfg pending req fresh exch relay).exchangeAttempted = false ∧
     (handleRequest cfg pending req fresh exch relay).relayAttempted = false) ∧
    (∀ (req2 : Req) (fresh2 : FreshAuth) (exch2 : ExchangeOutcome)
       (relay2 : RelayOutcome) (issuer : String),
       req2.pathname = "/" → req2.code = none → truthy req2.error = true →
       (getAuthTokens cfg).tokens = none → cfg.issuer = some issuer →
       (handleRequest cfg pending req2 fresh2 exch2 relay2).response.status =
         302 ∧
       (handleRequest cfg pending req2 fresh2 exch2 relay2).response.page =
         .empty) := by
  constructor
  · rw [handleRequest_callback_error cfg pending req fresh exch relay hpath
        hcode herr]
    exact ⟨rfl, rfl, rfl, rfl⟩
  · intro req2 fresh2 exch2 relay2 issuer hpath2 hcode2 _ hbypass hiss
    rw [handleRequest_initiation_oidc cfg pending req2 fresh2 exch2 relay2
        issuer hpath2 hcode2 hbypass hiss]
    exact ⟨rfl, rfl⟩

/-- Witness for the amended C4 statement at a concrete denied-consent
callback that carries both `code` and `error`. -/
theorem C4_witness :
    ((handleRequest cfgPlain none
        ⟨"/", some "c1", some "s1", some "access_denied",
         some "User cancelled", none, none, none⟩
        freshA (.success tokensA) (.ok "\x7b\x7d")).response.status = 200 ∧
     (handleRequest cfgPlain none
        ⟨"/", some "c1", some "s1", some "access_denied",
         some "User cancelled", none, none, none⟩
        freshA (.success tokensA) (.ok "\x7b\x7d")).response.page =
       .authError "access_denied" (some "User cancelled") ∧
     (handleRequest cfgPlain none
        ⟨"/", some "c1", some "s1", some "access_denied",
         some "User cancelled", none, none, none⟩
        freshA (.success tokensA) (.ok "\x7b\x7d")).exchangeAttempted = false ∧
     (handleRequest cfgPlain none
        ⟨"/", some "c1", some "s1", some "access_denied",
         some "User cancelled", none, none, none⟩
        freshA (.success tokensA) (.ok "\x7b\x7d")).relayAttempted = false) ∧
    (handleRequest cfgPlain none
        ⟨"/", none, none, some "access_denied", some "User cancelled",
         none, none, none⟩
        freshA (.success tokensA) (.ok "\x7b\x7d")).response.status = 302 :=
  ⟨(C4_error_param_page cfgPlain none
      ⟨"/", some "c1", some "s1", some "access_denied",
       some "User cancelled", none, none, none⟩
      freshA (.success tokensA) (.ok "\x7b\x7d") rfl (by simp) rfl).1,
   ((C4_error_param_page cfgPlain none
      ⟨"/", some "c1", some "s1", some "access_denied",
       some "User cancelled", none, none, none⟩
      freshA (.success tokensA) (.ok "\x7b\x7d") rfl (by simp) rfl).2
      ⟨"/", none, none, some "access_denied", some "User cancelled",
       none, none, none⟩
      freshA (.success tokensA) (.ok "\x7b\x7d") "https://issuer.example/"
      rfl rfl rfl rfl rfl).1⟩

/-- C4 counterexample: the clause "regardless of whether a code
parameter is also present" of the claim fails. A request with
`error=access_denied&error_description=User+cancelled` but no `code`
is routed to the initiation branch: the daemon answers 302 with an
empty body (a fresh redirect to the provider), not 200 with a failure
page. -/
theorem C4_counterexample :
    (handleRequest cfgPlain none
        ⟨"/", none, none, some "access_denied", some "User cancelled",
         none, none, none⟩
        freshA (.success tokensA) (.ok "\x7b\x7d")).response.status = 302 ∧
    (handleRequest cfgPlain none
        ⟨"/", none, none, some "access_denied", some "User cancelled",
         none, none, none⟩
        freshA (.success tokensA) (.ok "\x7b\x7d")).response.page = .empty :=
  ⟨rfl, rfl⟩

/-- C5 (amended): a flow initiated with `mode=return-tokens` that
reaches a successful exchange renders the page whose script posts to
`window.opener` a message whose `type` field is the literal
`"cluster-tokens"` (not `"token-set"` as the spec names it) and whose
`tokens` field is exactly the exchanged token set; the backend relay
is never invoked on that path. -/
theorem C5_return_tokens_delivery (cfg : Config) (pa : PendingAuth)
    (req : Req) (fresh : FreshAuth) (t : Json) (relay : RelayOutcome)
    (hpath : req.pathname = "/") (hcode : req.code ≠ none)
    (herr : req.error = none) (hst : req.state = some pa.state)
    (hret : pa.returnTokens = true) :
    (handleRequest cfg (some pa) req fresh (.success t) relay).response.status =
      200 ∧
    (handleRequest cfg (some pa) req fresh (.success t) relay).response.page =
      .clusterTokens t ∧
    postedMessage
        (handleRequest cfg (some pa) req fresh (.success t) relay).response.page =
      some ⟨"cluster-tokens", some t, none, none, none⟩ ∧
    (handleRequest cfg (some pa) req fresh (.success t) relay).relayAttempted =
      false := by
  rw [handleRequest_callback_success_return cfg pa req fresh t relay hpath
      hcode herr hst hret]
  exact ⟨rfl, rfl, rfl, rfl⟩

/-- Witness for the amended C5 statement at a concrete
`mode=return-tokens` flow. -/
theorem C5_witness :
    (handleRequest cfgBackend (some ⟨"v1", "s1", true⟩)
        (callbackReq "c1" "s1") freshA (.success tokensA)
        (.ok "\x7b\x7d")).response.status = 200 ∧
    (handleRequest cfgBackend (some ⟨"v1", "s1", true⟩)
        (callbackReq "c1" "s1") freshA (.success tokensA)
        (.ok "\x7b\x7d")).response.page = .clusterTokens tokensA ∧
    postedMessage
        (handleRequest cfgBackend (some ⟨"v1", "s1", true⟩)
          (callbackReq "c1" "s1") freshA (.success tokensA)
          (.ok "\x7b\x7d")).response.page =
      some ⟨"cluster-tokens", some tokensA, none, none, none⟩ ∧
    (handleRequest cfgBackend (some ⟨"v1", "s1", true⟩)
        (callbackReq "c1" "s1") freshA (.success tokensA)
        (.ok "\x7b\x7d")).relayAttempted = false :=
  C5_return_tokens_delivery cfgBackend ⟨"v1", "s1", true⟩
    (callbackReq "c1" "s1") freshA tokensA (.ok "\x7b\x7d")
    rfl (by simp [callbackReq]) rfl rfl rfl

/-- C5 counterexample: the message type posted on the
`mode=return-tokens` success path is `"cluster-tokens"`, not the
`"token-set"` the claim states. -/
theorem C5_counterexample :
    (postedMessage (handleRequest cfgBackend (some ⟨"v1", "s1", true⟩)
        (callbackReq "c1" "s1") freshA (.success tokensA)
        (.ok "\x7b\x7d")).response.page).map PostMsg.type =
      some "cluster-tokens" ∧
    (postedMessage (handleRequest cfgBackend (some ⟨"v1", "s1", true⟩)
        (callbackReq "c1" "s1") freshA (.success tokensA)
        (.ok "\x7b\x7d")).response.page).map PostMsg.type ≠ some "token-set" :=
  ⟨rfl, by decide⟩

/-- C6: on a backend-push-mode callback whose token exchange succeeds,
the response of the daemon has status 200 and shows the
authentication-success heading whatever the relay outcome; a relay
failure only selects the variant page whose extra paragraph notes the
backend could not be reached, never replacing the success signal. -/
theorem C6_relay_failure_secondary (cfg : Config) (pa : PendingAuth)
    (req : Req) (fresh : FreshAuth) (t : Json) (b : String)
    (relay : RelayOutcome)
    (hpath : req.pathname = "/") (hcode : req.code ≠ none)
    (herr : req.error = none) (hst : req.state = some pa.state)
    (hret : pa.returnTokens = false) (hb : cfg.backendUrl = some b) :
    (handleRequest cfg (some pa) req fresh (.success t) relay).response.status =
      200 ∧
    pageH1
        (handleRequest cfg (some pa) req fresh (.success t) relay).response.page =
      some "✅ Authentication Successful!" ∧
    (∀ m, relay = .error m →
       (handleRequest cfg (some pa) req fresh (.success t) relay).response.page =
         .backendFailed ∧
       pageNote Page.backendFailed =
         some "Note: Could not connect to backend - tokens saved locally.") := by
  cases relay with
  | ok data =>
    rw [handleRequest_callback_success_backend_ok cfg pa req fresh t b data
        hpath hcode herr hst hret hb]
    exact ⟨rfl, rfl, fun m hm => by cases hm⟩
  | error m0 =>
    rw [handleRequest_callback_success_backend_err cfg pa req fresh t b m0
        hpath hcode herr hst hret hb]
    exact ⟨rfl, rfl, fun m hm => ⟨rfl, rfl⟩⟩

/-- Witness for C6 at a concrete failing relay. -/
theorem C6_witness :
    (handleRequest cfgBackend (some ⟨"v1", "s1", false⟩)
        (callbackReq "c1" "s1") freshA (.success tokensA)
        (.error "backend down")).response.status = 200 ∧
    pageH1
        (handleRequest cfgBackend (some ⟨"v1", "s1", false⟩)
          (callbackReq "c1" "s1") freshA (.success tokensA)
          (.error "backend down")).response.page =
      some "✅ Authentication Successful!" ∧
    (handleRequest cfgBackend (some ⟨"v1", "s1", false⟩)
        (callbackReq "c1" "s1") freshA (.success tokensA)
        (.error "backend down")).response.page = .backendFailed :=
  ⟨(C6_relay_failure_secondary cfgBackend ⟨"v1", "s1", false⟩
      (callbackReq "c1" "s1") freshA tokensA "http://localhost:7007"
      (.error "backend down") rfl (by simp [callbackReq]) rfl rfl rfl rfl).1,
   (C6_relay_failure_secondary cfgBackend ⟨"v1", "s1", false⟩
      (callbackReq "c1" "s1") freshA tokensA "http://localhost:7007"
      (.error "backend down") rfl (by simp [callbackReq]) rfl rfl rfl rfl).2.1,
   ((C6_relay_failure_secondary cfgBackend ⟨"v1", "s1", false⟩
      (callbackReq "c1" "s1") freshA tokensA "http://localhost:7007"
      (.error "backend down") rfl (by simp [callbackReq]) rfl rfl rfl rfl).2.2
      "backend down" rfl).1⟩

/-- C7: with `config.tokens` present, `getAuthTokens` returns the
synthesized token set with `token_type` `"Bearer"` and the sentinel
scope `"cluster-access"` exactly when both `accessToken` and `idToken`
are truthy (present and non-empty); otherwise it returns null and logs
the warning; in particular a partial configuration (exactly one of the
two supplied) warns and falls through to the normal OIDC path, whose
initiation responds with the 302 redirect and mints a session. -/
theorem C7_bypass_check (cfg : Config) (bt : BypassTokens)
    (hcfg : cfg.tokens = some bt) :
    (truthy bt.accessToken = true → truthy bt.idToken = true →
       (getAuthTokens cfg).tokens =
         some (.obj [("access_token", .str (bt.accessToken.getD "")),
                     ("id_token", .str (bt.idToken.getD "")),
                     ("token_type", .str "Bearer"),
                     ("scope", .str "cluster-access")]) ∧
       (Json.obj [("access_token", .str (bt.accessToken.getD "")),
                  ("id_token", .str (bt.idToken.getD "")),
                  ("token_type", .str "Bearer"),
                  ("scope", .str "cluster-access")]).getStr "token_type" =
         some "Bearer" ∧
       (Json.obj [("access_token", .str (bt.accessToken.getD "")),
                  ("id_token", .str (bt.idToken.getD "")),
                  ("token_type", .str "Bearer"),
                  ("scope", .str "cluster-access")]).getStr "scope" =
         some "cluster-access" ∧
       (Json.obj [("access_token", .str (bt.accessToken.getD "")),
                  ("id_token", .str (bt.idToken.getD "")),
                  ("token_type", .str "Bearer"),
                  ("scope", .str "cluster-access")]).getStr "access_token" =
         bt.accessToken ∧
       (Json.obj [("access_token", .str (bt.accessToken.getD "")),
                  ("id_token", .str (bt.idToken.getD "")),
                  ("token_type", .str "Bearer"),
                  ("scope", .str "cluster-access")]).getStr "id_token" =
         bt.idToken) ∧
    (¬(truthy bt.accessToken = true ∧ truthy bt.idToken = true) →
       (getAuthTokens cfg).tokens = none ∧ (getAuthTokens cfg).warned = true) ∧
    (truthy bt.accessToken ≠ truthy bt.idToken →
       (getAuthTokens cfg).warned = true ∧ (getAuthTokens cfg).tokens = none ∧
       (∀ (pending : Option PendingAuth) (req : Req) (fresh : FreshAuth)
          (exch : ExchangeOutcome) (relay : RelayOutcome) (issuer : String),
          req.pathname = "/" → req.code = none → cfg.issuer = some issuer →
          (handleRequest cfg pending req fresh exch relay).response.status =
            302 ∧
          (handleRequest cfg pending req fresh exch relay).pendingAuth =
            some ⟨fresh.codeVerifier, fresh.state,
                  decide (req.mode = some "return-tokens")⟩)) := by
  have hpartial : truthy bt.accessToken ≠ truthy bt.idToken →
      ¬(truthy bt.accessToken = true ∧ truthy bt.idToken = true) := by
    intro hne ⟨h1, h2⟩
    exact hne (h1.trans h2.symm)
  refine ⟨?_, ?_, ?_⟩
  · intro h1 h2
    refine ⟨by simp [getAuthTokens, hcfg, h1, h2], rfl, rfl, ?_, ?_⟩
    · cases ha : bt.accessToken with
      | none => rw [ha] at h1; simp [truthy] at h1
      | some s => rfl
    · cases hi : bt.idToken with
      | none => rw [hi] at h2; simp [truthy] at h2
      | some s => rfl
  · intro hnot
    have hres : getAuthTokens cfg = ⟨none, true⟩ := by
      cases hA : truthy bt.accessToken <;> cases hI : truthy bt.idToken
      · simp [getAuthTokens, hcfg, hA, hI]
      · simp [getAuthTokens, hcfg, hA, hI]
      · simp [getAuthTokens, hcfg, hA, hI]
      · exact absurd ⟨hA, hI⟩ hnot
    rw [hres]
    exact ⟨rfl, rfl⟩
  · intro hne
    have hnot := hpartial hne
    have hres : getAuthTokens cfg = ⟨none, true⟩ := by
      cases hA : truthy bt.accessToken <;> cases hI : truthy bt.idToken
      · simp [getAuthTokens, hcfg, hA, hI]
      · simp [getAuthTokens, hcfg, hA, hI]
      · simp [getAuthTokens, hcfg, hA, hI]
      · exact absurd ⟨hA, hI⟩ hnot
    refine ⟨by rw [hres], by rw [hres], ?_⟩
    intro pending req fresh exch relay issuer hpath hcode hiss
    rw [handleRequest_initiation_oidc cfg pending req fresh exch relay issuer
        hpath hcode (by rw [hres]) hiss]
    exact ⟨rfl, rfl⟩

/-- Witness for C7 at the partial bypass configuration that supplies
only `accessToken`. -/
theorem C7_witness :
    (getAuthTokens cfgBypassOnlyAccess).warned = true ∧
    (getAuthTokens cfgBypassOnlyAccess).tokens = none ∧
    (handleRequest cfgBypassOnlyAccess none initReq freshA (.success tokensA)
        (.ok "\x7b\x7d")).response.status = 302 := by
  have h := (C7_bypass_check cfgBypassOnlyAccess ⟨some "tokA", none⟩ rfl).2.2
    (by decide)
  exact ⟨h.1, h.2.1,
    (h.2.2 none initReq freshA (.success tokensA) (.ok "\x7b\x7d")
      "https://issuer.example/" rfl rfl rfl).1⟩

/-- C3: each `generatePKCE` call encodes its 32 random bytes URL-safe
base64 without padding as the verifier; the challenge is exactly the
URL-safe unpadded base64 of the SHA-256 digest of the verifier string;
and `generateState` encodes its 16 random bytes the same way. The
encoded lengths (43 and 22 characters) witness the byte counts. -/
theorem C3_pkce_state_encoding (sha256 : List Nat → List Nat)
    (r32 r16 : List Nat) (h32 : r32.length = 32) (h16 : r16.length = 16)
    (hsha : ∀ xs, (sha256 xs).length = 32) :
    (generatePKCE sha256 r32).1 = ⟨b64UrlEncodeBytes r32⟩ ∧
    ((generatePKCE sha256 r32).1).data.length = 43 ∧
    (∀ c ∈ ((generatePKCE sha256 r32).1).data, isUrlSafeChar c = true) ∧
    '=' ∉ ((generatePKCE sha256 r32).1).data ∧
    (generatePKCE sha256 r32).2 =
      ⟨b64UrlEncodeBytes
        (sha256 (((generatePKCE sha256 r32).1).data.map Char.toNat))⟩ ∧
    ((generatePKCE sha256 r32).2).data.length = 43 ∧
    (∀ c ∈ ((generatePKCE sha256 r32).2).data, isUrlSafeChar c = true) ∧
    '=' ∉ ((generatePKCE sha256 r32).2).data ∧
    generateState r16 = ⟨b64UrlEncodeBytes r16⟩ ∧
    (generateState r16).data.length = 22 ∧
    (∀ c ∈ (generateState r16).data, isUrlSafeChar c = true) ∧
    '=' ∉ (generateState r16).data := by
  refine ⟨rfl, ?_, ?_, ?_, rfl, ?_, ?_, ?_, rfl, ?_, ?_, ?_⟩
  · show (b64UrlEncodeBytes r32).length = 43
    rw [b64UrlEncodeBytes_length, h32]
    decide
  · exact b64UrlEncodeBytes_mem_urlSafe r32
  · exact b64UrlEncodeBytes_no_pad r32
  · show (b64UrlEncodeBytes (sha256 _)).length = 43
    rw [b64UrlEncodeBytes_length, hsha]
    decide
  · exact b64UrlEncodeBytes_mem_urlSafe _
  · exact b64UrlEncodeBytes_no_pad _
  · show (b64UrlEncodeBytes r16).length = 22
    rw [b64UrlEncodeBytes_length, h16]
    decide
  · exact b64UrlEncodeBytes_mem_urlSafe r16
  · exact b64UrlEncodeBytes_no_pad r16

/-- Witness for C3 at concrete byte lists and a concrete stand-in for
the digest function. -/
theorem C3_witness :
    (generatePKCE (fun _ => List.range 32) (List.range 32)).1 =
      ⟨b64UrlEncodeBytes (List.range 32)⟩ ∧
    ((generatePKCE (fun _ => List.range 32) (List.range 32)).1).data.length =
      43 ∧
    ((generatePKCE (fun _ => List.range 32) (List.range 32)).2).data.length =
      43 ∧
    (generateState (List.range 16)).data.length = 22 := by
  have h := C3_pkce_state_encoding (fun _ => List.range 32) (List.range 32)
    (List.range 16) (by simp) (by simp) (fun xs => by simp)
  exact ⟨h.1, h.2.1, h.2.2.2.2.2.1, h.2.2.2.2.2.2.2.2.2.1⟩

theorem string_data_append (s t : String) : (s ++ t).data = s.data ++ t.data := by
  cases s
  cases t
  rfl

theorem string_ne_of_get (s t : String) (i : Nat)
    (h : s.data.get? i ≠ t.data.get? i) : s ≠ t :=
  fun he => h (by rw [he])

theorem list_get?_append {α : Type} (l1 l2 : List α) (n : Nat)
    (h : n < l1.length) : (l1 ++ l2).get? n = l1.get? n := by
  induction l1 generalizing n with
  | nil => simp at h
  | cons a l ih =>
    cases n with
    | zero => rfl
    | succ m => exact ih m (by simpa using h)

theorem exchError_messages_distinct (a b : String) :
    (ExchangeError.exchangeFailed a).message ≠
      ExchangeError.parseFailed.message ∧
    (ExchangeError.exchangeFailed a).message ≠
      (ExchangeError.requestFailed b).message ∧
    ExchangeError.parseFailed.message ≠
      (ExchangeError.requestFailed b).message := by
  refine ⟨?_, ?_, ?_⟩
  · apply string_ne_of_get _ _ 0
    simp only [ExchangeError.message]
    rw [string_data_append, list_get?_append _ _ 0 (by decide)]
    decide
  · apply string_ne_of_get _ _ 15
    simp only [ExchangeError.message]
    rw [string_data_append, string_data_append,
        list_get?_append _ _ 15 (by decide), list_get?_append _ _ 15 (by decide)]
    decide
  · apply string_ne_of_get _ _ 0
    simp only [ExchangeError.message]
    rw [string_data_append, list_get?_append _ _ 0 (by decide)]
    decide

/-- C8 (amended): `exchangeCodeForTokens` resolves exactly when the
token endpoint answered with a 2xx status and a JSON-parseable body
(the presence of `access_token` in that body is not checked), and its
three failure modes are mutually distinguishable: a network-level
failure rejects with the could-not-reach error carrying the socket
message; a body that fails to parse as JSON rejects with the distinct
malformed-response error whatever the status; a non-2xx status with a
JSON body rejects with the `error` field of the provider when present
and truthy, "Unknown error" otherwise (`error_description` and the raw
body are not surfaced). The three rejection messages are pairwise
distinct for all payloads. -/
theorem C8_exchange_decision (net : Except String HttpResp) :
    ((∃ j, exchangeCodeForTokens net = .ok j) ↔
       (∃ resp j, net = .ok resp ∧ jsonParse resp.body = some j ∧
          200 ≤ resp.statusCode ∧ resp.statusCode < 300)) ∧
    (∀ m, net = .error m →
       exchangeCodeForTokens net = .error (.requestFailed m)) ∧
    (∀ resp, net = .ok resp → jsonParse resp.body = none →
       exchangeCodeForTokens net = .error .parseFailed) ∧
    (∀ resp j, net = .ok resp → jsonParse resp.body = some j →
       ¬(200 ≤ resp.statusCode ∧ resp.statusCode < 300) →
       exchangeCodeForTokens net = .error (.exchangeFailed (jsonErrorField j))) ∧
    (∀ a b : String,
       (ExchangeError.exchangeFailed a).message ≠
         ExchangeError.parseFailed.message ∧
       (ExchangeError.exchangeFailed a).message ≠
         (ExchangeError.requestFailed b).message ∧
       ExchangeError.parseFailed.message ≠
         (ExchangeError.requestFailed b).message) := by
  refine ⟨?_, ?_, ?_, ?_, fun a b => exchError_messages_distinct a b⟩
  · cases net with
    | error m => simp [exchangeCodeForTokens]
    | ok resp =>
      cases hp : jsonParse resp.body with
      | none => simp [exchangeCodeForTokens, hp]
      | some j =>
        by_cases hs : 200 ≤ resp.statusCode ∧ resp.statusCode < 300
        · simp [exchangeCodeForTokens, hp, hs]
        · simp [exchangeCodeForTokens, hp, hs]
  · intro m hm
    rw [hm]
    rfl
  · intro resp hr hp
    rw [hr]
    simp [exchangeCodeForTokens, hp]
  · intro resp j hr hp hs
    rw [hr]
    simp [exchangeCodeForTokens, hp, hs]

/-- Witness for the amended C8 statement: one concrete run of each
failure mode. -/
theorem C8_witness :
    exchangeCodeForTokens (.error "getaddrinfo ENOTFOUND issuer") =
      .error (.requestFailed "getaddrinfo ENOTFOUND issuer") ∧
    exchangeCodeForTokens (.ok ⟨502, "<html>Bad Gateway</html>"⟩) =
      .error .parseFailed ∧
    exchangeCodeForTokens (.ok ⟨403, "\x7b\"error\":\"access_denied\"\x7d"⟩) =
      .error (.exchangeFailed "access_denied") :=
  ⟨(C8_exchange_decision (.error "getaddrinfo ENOTFOUND issuer")).2.1 _ rfl,
   (C8_exchange_decision (.ok ⟨502, "<html>Bad Gateway</html>"⟩)).2.2.1
     ⟨502, "<html>Bad Gateway</html>"⟩ rfl rfl,
   (C8_exchange_decision (.ok ⟨403, "\x7b\"error\":\"access_denied\"\x7d"⟩)).2.2.2.1
     ⟨403, "\x7b\"error\":\"access_denied\"\x7d"⟩
     (.obj [("error", .str "access_denied")]) rfl rfl (by decide)⟩

/-- C8 counterexample: a 2xx response whose JSON body lacks
`access_token` still resolves successfully, so the clause "a
parseable JSON body containing at least access_token" is not what the
code checks. -/
theorem C8_counterexample :
    exchangeCodeForTokens (.ok ⟨200, "\x7b\x7d"⟩) = .ok (.obj []) ∧
    (Json.obj []).getStr "access_token" = none :=
  ⟨rfl, rfl⟩

/-- C9: `decodeJWT` classifies by segment count after splitting on
dots: five segments give the encrypted kind (`"jwe"`) with no claims;
three segments give the signed kind (`"jwt"`) with claims equal to the
JSON-parse of the URL-safe-base64 decode of the middle segment, and a
middle segment whose decode fails to parse gives kind `"error"`; any
other segment count gives kind `"unknown"`. Consequently decoding
round-trips: for any token assembled as
`base64url(header).base64url(payloadBytes).base64url(signature)` whose
payload bytes JSON-parse to `p`, the decoder returns the signed kind
with claims exactly `p`. -/
theorem C9_decodeJWT_classification :
    (∀ token : String, (splitOnDot token.data).length = 5 →
       decodeJWT token = ⟨"jwe", none⟩) ∧
    (∀ token : String, (splitOnDot token.data).length = 3 →
       (∀ p, jsonParse (decodedMiddle token) = some p →
          decodeJWT token = ⟨"jwt", some p⟩) ∧
       (jsonParse (decodedMiddle token) = none →
          decodeJWT token = ⟨"error", none⟩)) ∧
    (∀ token : String, (splitOnDot token.data).length ≠ 5 →
       (splitOnDot token.data).length ≠ 3 →
       decodeJWT token = ⟨"unknown", none⟩) ∧
    (∀ hdr pb sig : List Nat, (∀ x ∈ pb, x < 256) →
       ∀ p, jsonParse (bytesToStr pb) = some p →
       decodeJWT (⟨b64UrlEncodeBytes hdr⟩ ++ "." ++ ⟨b64UrlEncodeBytes pb⟩ ++
           "." ++ ⟨b64UrlEncodeBytes sig⟩) = ⟨"jwt", some p⟩) := by
  have hsigned : ∀ token : String, (splitOnDot token.data).length = 3 →
      (∀ p, jsonParse (decodedMiddle token) = some p →
         decodeJWT token = ⟨"jwt", some p⟩) ∧
      (jsonParse (decodedMiddle token) = none →
         decodeJWT token = ⟨"error", none⟩) := by
    intro token h3
    constructor
    · intro p hp
      simp [decodeJWT, h3, hp]
    · intro hnone
      simp [decodeJWT, h3, hnone]
  refine ⟨?_, hsigned, ?_, ?_⟩
  · intro token h5
    simp [decodeJWT, h5]
  · intro token h5 h3
    simp [decodeJWT, h5, h3]
  · intro hdr pb sig hb p hp
    have hsplit :
        splitOnDot (⟨b64UrlEncodeBytes hdr⟩ ++ "." ++ ⟨b64UrlEncodeBytes pb⟩ ++
            "." ++ ⟨b64UrlEncodeBytes sig⟩ : String).data =
          [b64UrlEncodeBytes hdr, b64UrlEncodeBytes pb,
           b64UrlEncodeBytes sig] := by
      have hd : (⟨b64UrlEncodeBytes hdr⟩ ++ "." ++ ⟨b64UrlEncodeBytes pb⟩ ++
            "." ++ ⟨b64UrlEncodeBytes sig⟩ : String).data =
          b64UrlEncodeBytes hdr ++
            '.' :: (b64UrlEncodeBytes pb ++ '.' :: b64UrlEncodeBytes sig) := by
        rw [string_data_append, string_data_append, string_data_append,
            string_data_append]
        show b64UrlEncodeBytes hdr ++ ['.'] ++ b64UrlEncodeBytes pb ++ ['.'] ++
            b64UrlEncodeBytes sig = _
        simp
      rw [hd, splitOnDot_append_dot _ _ (b64UrlEncodeBytes_no_dot hdr),
          splitOnDot_append_dot _ _ (b64UrlEncodeBytes_no_dot pb),
          splitOnDot_no_dot _ (b64UrlEncodeBytes_no_dot sig)]
    have hmid : decodedMiddle (⟨b64UrlEncodeBytes hdr⟩ ++ "." ++
          ⟨b64UrlEncodeBytes pb⟩ ++ "." ++ ⟨b64UrlEncodeBytes sig⟩) =
        bytesToStr pb := by
      unfold decodedMiddle
      rw [hsplit]
      show bytesToStr (b64DecodeChars
        ((b64UrlEncodeBytes pb).map mapUrlToStd)) = bytesToStr pb
      rw [b64UrlEncodeBytes_roundtrip pb hb]
    have h3 : (splitOnDot (⟨b64UrlEncodeBytes hdr⟩ ++ "." ++
          ⟨b64UrlEncodeBytes pb⟩ ++ "." ++
          ⟨b64UrlEncodeBytes sig⟩ : String).data).length = 3 := by
      rw [hsplit]
      rfl
    exact (hsigned _ h3).1 p (by rw [hmid]; exact hp)

/-- Witness for C9: concrete tokens of every kind, and a concrete
assembled token whose payload decodes back to the original JSON
object. -/
theorem C9_witness :
    decodeJWT "a.b.c.d.e" = ⟨"jwe", none⟩ ∧
    decodeJWT "a.bnVsbA.c" = ⟨"jwt", some .null⟩ ∧
    decodeJWT "a.b" = ⟨"unknown", none⟩ ∧
    decodeJWT "a.!!!!.c" = ⟨"error", none⟩ ∧
    decodeJWT (⟨b64UrlEncodeBytes [1]⟩ ++ "." ++
        ⟨b64UrlEncodeBytes [123, 125]⟩ ++ "." ++ ⟨b64UrlEncodeBytes [2]⟩) =
      ⟨"jwt", some (.obj [])⟩ := by
  refine ⟨?_, ?_, ?_, ?_, ?_⟩
  · exact C9_decodeJWT_classification.1 "a.b.c.d.e" (by decide)
  · exact (C9_decodeJWT_classification.2.1 "a.bnVsbA.c" (by decide)).1 .null rfl
  · exact C9_decodeJWT_classification.2.2.1 "a.b" (by decide) (by decide)
  · exact (C9_decodeJWT_classification.2.1 "a.!!!!.c" (by decide)).2 rfl
  · exact C9_decodeJWT_classification.2.2.2 [1] [123, 125] [2] (by decide)
      (.obj []) rfl
